import Mathlib

/-!
Shallow embedding of `src/pipable/pipable.py` (class `Pipable`).

The class orchestrates: a database connector (collaborator with `connect`,
`disconnect`, `execute_query`), a language-model client (collaborator with
`generate_text`), a `connected` flag, and a schema-statement cache
`all_table_queries`.  Collaborators are modelled as oracles (records of
functions returning `Except`); each method returns its Python result
(`Except PyErr α` for a value or a raised exception), the updated instance
state, and the trace of collaborator invocations it performed.
-/

/-- A raised Python exception: its class (kind) and its message `str(e)`. -/
inductive PyErr where
  | valueError (msg : String)
  | connectionError (msg : String)
  | nameError (msg : String)
  | other (msg : String)
deriving DecidableEq, Repr

deriving instance DecidableEq for Except

/-- `str(e)` of an exception value. -/
def PyErr.msg : PyErr → String
  | .valueError m => m
  | .connectionError m => m
  | .nameError m => m
  | .other m => m

/-- One row of the catalog-metadata result set:
`(table_name, column_name, data_type)` from `information_schema.columns`. -/
structure ColRow where
  table_name : String
  column_name : String
  data_type : String
deriving DecidableEq, Repr

/-- The tabular result of a query.  The only structural inspection the core
performs on a DataFrame is the column-info grouping, so rows of three
strings suffice for the embedding. -/
abbrev Df := List ColRow

/-- Oracle for the `DatabaseConnectorInterface` collaborator.  Each field is
the outcome of invoking that method (`.error e` models the call raising `e`). -/
structure DatabaseConnector where
  connect : Except PyErr Unit
  disconnect : Except PyErr Unit
  execute_query : String → Except PyErr Df

/-- Oracle for the `LlmApiClientInterface` collaborator:
`generate_text(context, question)` returns a (possibly empty) string or raises. -/
structure LlmApiClient where
  generate_text : String → String → Except PyErr String

/-- A collaborator invocation, recorded in the trace of each method. -/
inductive Call where
  | dbConnect
  | dbDisconnect
  | dbExec (sql : String)
  | llmGenerate (context question : String)
deriving DecidableEq, Repr

/-- The mutable fields of a `Pipable` instance that the claims concern:
`self.connected` and `self.all_table_queries`. -/
structure PipState where
  connected : Bool
  all_table_queries : Option (List String)
deriving DecidableEq, Repr

/-- The state set up by `__init__`: disconnected, empty cache. -/
def initState : PipState := { connected := false, all_table_queries := none }

/-- The characters Python `str.strip()` removes (CPython's Unicode
whitespace predicate): U+0009..U+000D, U+001C..U+0020, U+0085, U+00A0,
U+1680, U+2000..U+200A, U+2028, U+2029, U+202F, U+205F and U+3000. -/
def isPySpace (c : Char) : Bool :=
  (0x0009 ≤ c.toNat && c.toNat ≤ 0x000d)
    || (0x001c ≤ c.toNat && c.toNat ≤ 0x0020)
    || c.toNat = 0x0085 || c.toNat = 0x00a0 || c.toNat = 0x1680
    || (0x2000 ≤ c.toNat && c.toNat ≤ 0x200a)
    || c.toNat = 0x2028 || c.toNat = 0x2029
    || c.toNat = 0x202f || c.toNat = 0x205f || c.toNat = 0x3000

/-- Python `s.strip()`: drop leading and trailing whitespace. -/
def pyStrip (s : String) : String :=
  String.mk (((s.data.dropWhile isPySpace).reverse.dropWhile isPySpace).reverse)

/-- Lexicographic order on char lists (Unicode code points), as Python
compares strings when pandas sorts group keys. -/
def charListLe : List Char → List Char → Bool
  | [], _ => true
  | _ :: _, [] => false
  | a :: as, b :: bs => if a < b then true else if b < a then false else charListLe as bs

/-- String comparison used to model the sorted group keys. -/
def strLe (a b : String) : Bool := charListLe a.data b.data

/-- Insertion into a sorted list of strings. -/
def insertSorted (x : String) : List String → List String
  | [] => [x]
  | y :: ys => if strLe x y then x :: y :: ys else y :: insertSorted x ys

/-- Insertion sort on strings. -/
def sortStrings (l : List String) : List String := l.foldr insertSorted []

/-- Distinct elements of a list (order irrelevant here: keys are sorted after). -/
def uniqueKeys (l : List String) : List String :=
  l.foldr (fun x acc => if acc.contains x then acc else x :: acc) []

/-- The group keys of pandas `column_info_df.groupby("table_name")`: the
distinct table names, in sorted order (pandas groupby sorts keys by default). -/
def groupKeys (rows : List ColRow) : List String :=
  sortStrings (uniqueKeys (rows.map (·.table_name)))

/-- The body the groupby `apply` lambda renders for one table: its rows in
catalog order, each as `column_name data_type`, joined by `", "`. -/
def groupColumns (rows : List ColRow) (name : String) : String :=
  String.intercalate ", "
    ((rows.filter (fun r => r.table_name == name)).map
      (fun row => row.column_name ++ " " ++ row.data_type))

/-- `str()` of an empty pandas column Series, as the f-string renders it
when iterating the zero-row groupby result. -/
def emptySeriesRepr : String := "Series([], dtype: object)"

/-- What the statement list comprehension produces when the catalog query
returns zero rows: `groupby("table_name").apply(...)` on an empty frame
never calls the lambda and returns an empty DataFrame that keeps the three
result columns, and `.items()` on a DataFrame enumerates
`(column_label, column Series)` pairs — so the comprehension renders one
garbage statement per result column. -/
def emptyGroupStatements : List String :=
  ["table_name", "column_name", "data_type"].map fun column_label =>
    "CREATE TABLE " ++ column_label ++ " (" ++ emptySeriesRepr ++ ");"

/-- The list comprehension building `self.all_table_queries`: one
`CREATE TABLE <table_name> (<columns>);` string per group when rows exist;
on a zero-row result the pandas empty-groupby artifact described at
`emptyGroupStatements`. -/
def createTableStatements (rows : List ColRow) : List String :=
  if rows.isEmpty then emptyGroupStatements
  else
    (groupKeys rows).map fun table_name =>
      "CREATE TABLE " ++ table_name ++ " (" ++ groupColumns rows table_name ++ ");"

/-- The `where_clause` of `_generate_create_table_statements`:
`table_name IN ('t1','t2',...)` when a non-empty list is given
(`table_names is not None and len(table_names) > 0`), else
`table_schema = 'public'`. -/
def whereClause (table_names : Option (List String)) : String :=
  match table_names with
  | some ts =>
    if ts.length > 0 then
      "WHERE table_name IN ("
        ++ String.intercalate "," (ts.map fun table => "'" ++ table ++ "'") ++ ")"
    else "WHERE table_schema = 'public'"
  | none => "WHERE table_schema = 'public'"

/-- The `column_info_query` f-string, with the triple-quoted literal's exact
newlines and indentation. -/
def columnInfoQuery (table_names : Option (List String)) : String :=
  "\n        SELECT table_name, column_name, data_type\n        FROM information_schema.columns\n        "
    ++ whereClause table_names ++ ";\n        "

namespace Pipable

/-- `Pipable.connect`: if not connected, invoke the connector's `connect`;
on success set `connected = True`; on an underlying exception raise
`ConnectionError("Failed to connect to the database.")` (the cause is only
logged).  If already connected, do nothing. -/
def connect (db : DatabaseConnector) (s : PipState) :
    Except PyErr Unit × PipState × List Call :=
  if s.connected then (.ok (), s, [])
  else
    match db.connect with
    | .ok _ => (.ok (), { s with connected := true }, [Call.dbConnect])
    | .error _ =>
      (.error (.connectionError "Failed to connect to the database."), s, [Call.dbConnect])

/-- `Pipable.disconnect`: mirror of `connect`. -/
def disconnect (db : DatabaseConnector) (s : PipState) :
    Except PyErr Unit × PipState × List Call :=
  if s.connected then
    match db.disconnect with
    | .ok _ => (.ok (), { s with connected := false }, [Call.dbDisconnect])
    | .error _ =>
      (.error (.connectionError "Failed to disconnect from the database."), s, [Call.dbDisconnect])
  else (.ok (), s, [])

/-- `Pipable._generate_create_table_statements`: return the cache when
`self.all_table_queries is not None`; otherwise build `column_info_query`,
execute it, group and render, store the result in the cache and return it.
Any exception in the try block is replaced by
`ValueError("Error generating CREATE TABLE statements.")`. -/
def generate_create_table_statements (db : DatabaseConnector) (s : PipState)
    (table_names : Option (List String)) :
    Except PyErr (List String) × PipState × List Call :=
  match s.all_table_queries with
  | some q => (.ok q, s, [])
  | none =>
    let query := columnInfoQuery table_names
    match db.execute_query query with
    | .ok df =>
      let stmts := createTableStatements df
      (.ok stmts, { s with all_table_queries := some stmts }, [Call.dbExec query])
    | .error _ =>
      (.error (.valueError "Error generating CREATE TABLE statements."), s, [Call.dbExec query])

/-- `Pipable._generate_sql_query`: call `generate_text`; when the result is
falsy (the empty string) the method executes
`self.logger.error(f"LLM failed to generate a SQL query: \x7be\x7d")` — but `e`
is unbound there, so evaluating the f-string raises
`NameError("name 'e' is not defined")` before the intended
`ValueError("LLM failed to generate a SQL query.")` line is reached.
Otherwise return `generated_text.strip()`. -/
def generate_sql_query (llm : LlmApiClient) (context question : String) :
    Except PyErr String × List Call :=
  match llm.generate_text context question with
  | .ok generated_text =>
    if generated_text = "" then
      (.error (.nameError "name 'e' is not defined"), [Call.llmGenerate context question])
    else (.ok (pyStrip generated_text), [Call.llmGenerate context question])
  | .error e => (.error e, [Call.llmGenerate context question])

/-- The body of `ask`'s try block: connect, build schema statements, join
them with a single space into the context, generate the SQL, execute it. -/
def askInner (db : DatabaseConnector) (llm : LlmApiClient) (s : PipState)
    (question : String) (table_names : Option (List String)) :
    Except PyErr Df × PipState × List Call :=
  match connect db s with
  | (.error e, s1, t1) => (.error e, s1, t1)
  | (.ok _, s1, t1) =>
    match generate_create_table_statements db s1 table_names with
    | (.error e, s2, t2) => (.error e, s2, t1 ++ t2)
    | (.ok stmts, s2, t2) =>
      let context := String.intercalate " " stmts
      match generate_sql_query llm context question with
      | (.error e, t3) => (.error e, s2, t1 ++ t2 ++ t3)
      | (.ok sql_query, t3) =>
        match db.execute_query sql_query with
        | .ok result_df => (.ok result_df, s2, t1 ++ t2 ++ t3 ++ [Call.dbExec sql_query])
        | .error e => (.error e, s2, t1 ++ t2 ++ t3 ++ [Call.dbExec sql_query])

/-- `Pipable.ask`: the try body, with any exception `e` re-raised as
`Exception(f"Error in 'ask' method: \x7bstr(e)\x7d")`. -/
def ask (db : DatabaseConnector) (llm : LlmApiClient) (s : PipState)
    (question : String) (table_names : Option (List String)) :
    Except PyErr Df × PipState × List Call :=
  match askInner db llm s question table_names with
  | (.ok df, s1, t1) => (.ok df, s1, t1)
  | (.error e, s1, t1) =>
    (.error (.other ("Error in 'ask' method: " ++ PyErr.msg e)), s1, t1)

end Pipable

/-- One step of a connect/disconnect scenario: which method is called and
whether the underlying collaborator call would succeed. -/
inductive Op where
  | connect (underlyingOk : Bool)
  | disconnect (underlyingOk : Bool)
deriving DecidableEq, Repr

/-- A connector whose connect/disconnect outcomes are the given dispositions. -/
def connOnly (cok dok : Bool) : DatabaseConnector :=
  { connect := if cok then .ok () else .error (.other "db error"),
    disconnect := if dok then .ok () else .error (.other "db error"),
    execute_query := fun _ => .error (.other "not used") }

/-- Apply one scenario step to the instance state (the caller catches any
raised `ConnectionError` and continues); returns the new state and the
collaborator invocations performed. -/
def applyOp (s : PipState) : Op → PipState × List Call
  | .connect ok =>
    let r := Pipable.connect (connOnly ok true) s
    (r.2.1, r.2.2)
  | .disconnect ok =>
    let r := Pipable.disconnect (connOnly true ok) s
    (r.2.1, r.2.2)

/-- Run a scenario: a finite sequence of connect/disconnect calls. -/
def runOps (s : PipState) : List Op → PipState × List Call
  | [] => (s, [])
  | op :: rest =>
    let r := applyOp s op
    let r2 := runOps r.1 rest
    (r2.1, r.2 ++ r2.2)

/-- The spec's clamped running balance of successful connects minus
successful disconnects (a call is successful when it does not raise: either
it is a no-op in the target state already, or its underlying call succeeds). -/
def succBalance : Nat → List Op → Nat
  | b, [] => b
  | b, Op.connect ok :: rest =>
    succBalance (if b = 1 || ok then min 1 (b + 1) else b) rest
  | b, Op.disconnect ok :: rest =>
    succBalance (if b = 0 || ok then b - 1 else b) rest

/-- A connector that always succeeds and returns the `users` catalog rows
for any query. -/
def dbUsers : DatabaseConnector :=
  { connect := .ok (),
    disconnect := .ok (),
    execute_query := fun _ =>
      .ok [{ table_name := "users", column_name := "id", data_type := "integer" },
           { table_name := "users", column_name := "name", data_type := "text" }] }

/-- A language-model client that always returns the empty string. -/
def llmEmpty : LlmApiClient := { generate_text := fun _ _ => .ok "" }

/-- A language-model client that returns a fixed padded SQL string. -/
def llmPadded : LlmApiClient := { generate_text := fun _ _ => .ok "  SELECT 1;\n" }

/-- A connector whose connect and disconnect raise. -/
def dbConnFail : DatabaseConnector :=
  { connect := .error (.other "boom"),
    disconnect := .error (.other "boom"),
    execute_query := fun _ => .error (.other "boom") }

/-- A connector that answers the catalog query with the `users` rows but
raises on every other query (in particular on the generated SQL). -/
def dbExecFail : DatabaseConnector :=
  { connect := .ok (),
    disconnect := .ok (),
    execute_query := fun sql =>
      if sql = columnInfoQuery none then
        .ok [{ table_name := "users", column_name := "id", data_type := "integer" }]
      else .error (.other "exec boom") }

/-- A connector that answers every query with an empty result set. -/
def dbEmptyRows : DatabaseConnector :=
  { connect := .ok (),
    disconnect := .ok (),
    execute_query := fun _ => .ok [] }

/-! ## Theorems -/

/-- C1: when `generate_text` returns the empty (falsy) string, `ask()` does
fail without ever passing a generated SQL statement to `execute_query` — but
the failure is not the documented `ValueError("LLM failed to generate a SQL
query.")`: the logger call `logger.error(f"LLM failed to generate a SQL
query: ...")` interpolates the unbound name `e`, so a
`NameError("name 'e' is not defined")` is raised first, and `ask()` wraps
that instead.  The trace shows the only `execute_query` invocation is the
catalog-metadata query. -/
theorem ask_empty_generation_behavior :
    (Pipable.ask dbUsers llmEmpty initState "q" none).1
      = .error (.other "Error in 'ask' method: name 'e' is not defined")
    ∧ (Pipable.ask dbUsers llmEmpty initState "q" none).2.2
      = [Call.dbConnect, Call.dbExec (columnInfoQuery none),
         Call.llmGenerate "CREATE TABLE users (id integer, name text);" "q"] := by
  constructor <;> rfl

/-- C2: whenever `ask()` fails, the surfaced exception is the single generic
`Exception` whose message is exactly `"Error in 'ask' method: "` followed by
the proximate cause's message (the error raised inside the try body). -/
theorem ask_wraps_every_failure (db : DatabaseConnector) (llm : LlmApiClient)
    (s : PipState) (question : String) (table_names : Option (List String)) :
    (∃ df, (Pipable.ask db llm s question table_names).1 = .ok df) ∨
    (∃ e, (Pipable.askInner db llm s question table_names).1 = .error e ∧
      (Pipable.ask db llm s question table_names).1
        = .error (.other ("Error in 'ask' method: " ++ PyErr.msg e))) := by
  rcases h : Pipable.askInner db llm s question table_names with ⟨r, s1, t1⟩
  cases r with
  | ok df => exact Or.inl ⟨df, by simp [Pipable.ask, h]⟩
  | error e => exact Or.inr ⟨e, rfl, by simp [Pipable.ask, h]⟩

/-- C4: if the underlying connector's `connect` (resp. `disconnect`) raises,
then `connect()` (resp. `disconnect()`) leaves the instance state untouched
and, when it invokes the collaborator at all (i.e. a transition was due),
raises the fixed `ConnectionError` whose message never depends on the
underlying exception — the cause is logged, not propagated verbatim. -/
theorem connect_failure_state_unchanged (db : DatabaseConnector) (s : PipState)
    (e e' : PyErr) :
    (db.connect = .error e →
      (Pipable.connect db s).2.1 = s ∧
      ((Pipable.connect db s).1
          = .error (.connectionError "Failed to connect to the database.")
        ∨ s.connected = true))
    ∧ (db.disconnect = .error e' →
      (Pipable.disconnect db s).2.1 = s ∧
      ((Pipable.disconnect db s).1
          = .error (.connectionError "Failed to disconnect from the database.")
        ∨ s.connected = false)) := by
  constructor
  · intro h
    cases hc : s.connected
    · simp [Pipable.connect, hc, h]
    · simp [Pipable.connect, hc]
  · intro h
    cases hc : s.connected
    · simp [Pipable.disconnect, hc]
    · simp [Pipable.disconnect, hc, h]

/-- Witness for C4 at a concrete failing connector. -/
theorem connect_failure_state_unchanged_witness :
    ((Pipable.connect dbConnFail initState).2.1 = initState ∧
      ((Pipable.connect dbConnFail initState).1
          = .error (.connectionError "Failed to connect to the database.")
        ∨ initState.connected = true))
    ∧ ((Pipable.disconnect dbConnFail initState).2.1 = initState ∧
      ((Pipable.disconnect dbConnFail initState).1
          = .error (.connectionError "Failed to disconnect from the database.")
        ∨ initState.connected = false)) :=
  ⟨(connect_failure_state_unchanged dbConnFail initState
      (.other "boom") (.other "boom")).1 rfl,
   (connect_failure_state_unchanged dbConnFail initState
      (.other "boom") (.other "boom")).2 rfl⟩

/-- C7: the catalog-metadata query selects
`(table_name, column_name, data_type)` from `information_schema.columns`,
filtered by `WHERE table_name IN ('t1','t2',...)` listing exactly the given
names when a non-empty list is passed, and by
`WHERE table_schema = 'public'` when the argument is `None` or empty. -/
theorem catalog_query_construction :
    (∀ tn, columnInfoQuery tn
        = "\n        SELECT table_name, column_name, data_type\n        FROM information_schema.columns\n        "
          ++ whereClause tn ++ ";\n        ")
    ∧ (∀ ts : List String, ts ≠ [] → whereClause (some ts)
        = "WHERE table_name IN ("
            ++ String.intercalate "," (ts.map fun table => "'" ++ table ++ "'") ++ ")")
    ∧ whereClause none = "WHERE table_schema = 'public'"
    ∧ whereClause (some []) = "WHERE table_schema = 'public'"
    ∧ whereClause (some ["t1", "t2"]) = "WHERE table_name IN ('t1','t2')" := by
  refine ⟨fun tn => rfl, ?_, rfl, rfl, by decide⟩
  intro ts h
  simp [whereClause, List.length_pos.mpr h]

/-- Witness for C7 at a concrete non-empty table list. -/
theorem catalog_query_construction_witness :
    whereClause (some ["orders"])
      = "WHERE table_name IN ("
          ++ String.intercalate "," (["orders"].map fun table => "'" ++ table ++ "'") ++ ")" :=
  catalog_query_construction.2.1 ["orders"] (by decide)

/-- Helper for C3: along any scenario, the `connected` flag tracks the
clamped balance of successful transitions. -/
theorem runOps_balance (ops : List Op) : ∀ (b : Nat) (s : PipState),
    b ≤ 1 → s.connected = decide (b = 1) →
    (runOps s ops).1.connected = decide (succBalance b ops = 1) := by
  induction ops with
  | nil => intro b s _ hs; simpa [runOps, succBalance] using hs
  | cons op rest ih =>
    intro b s hb hs
    have hrun : (runOps s (op :: rest)).1 = (runOps (applyOp s op).1 rest).1 := by
      simp [runOps]
    rw [hrun]
    interval_cases b <;> cases op <;> rename_i ok <;> cases ok <;>
      simp_all [applyOp, Pipable.connect, Pipable.disconnect, connOnly, succBalance] <;>
      first
        | exact ih 0 _ (by omega) (by simp_all)
        | exact ih 1 _ (by omega) (by simp_all)

/-- C3: for every finite sequence of `connect()`/`disconnect()` calls from
the initial disconnected state, the `connected` flag equals the clamped
running balance of successful connects minus successful disconnects; a
`connect()` when already connected and a `disconnect()` when already
disconnected are no-ops that invoke no collaborator and leave the state
unchanged. -/
theorem connection_state_clamped_balance :
    (∀ ops : List Op,
      (runOps initState ops).1.connected = decide (succBalance 0 ops = 1))
    ∧ (∀ (db : DatabaseConnector) (s : PipState), s.connected = true →
        Pipable.connect db s = (.ok (), s, []))
    ∧ (∀ (db : DatabaseConnector) (s : PipState), s.connected = false →
        Pipable.disconnect db s = (.ok (), s, [])) := by
  refine ⟨fun ops => runOps_balance ops 0 initState (by omega) rfl, ?_, ?_⟩
  · intro db s h; simp [Pipable.connect, h]
  · intro db s h; simp [Pipable.disconnect, h]

/-- Witness for C3 at a concrete scenario and concrete states. -/
theorem connection_state_clamped_balance_witness :
    (runOps initState
        [Op.connect true, Op.connect true, Op.disconnect false,
         Op.disconnect true]).1.connected
      = decide (succBalance 0
          [Op.connect true, Op.connect true, Op.disconnect false,
           Op.disconnect true] = 1)
    ∧ Pipable.connect dbUsers { connected := true, all_table_queries := none }
        = (.ok (), { connected := true, all_table_queries := none }, [])
    ∧ Pipable.disconnect dbUsers initState = (.ok (), initState, []) :=
  ⟨connection_state_clamped_balance.1 _,
   connection_state_clamped_balance.2.1 dbUsers _ rfl,
   connection_state_clamped_balance.2.2 dbUsers _ rfl⟩

/-- Helper for C5: deduplicating a non-empty constant list of names yields
the single name. -/
theorem uniqueKeys_const (n : String) : ∀ (l : List String), l ≠ [] →
    (∀ x ∈ l, x = n) → uniqueKeys l = [n] := by
  intro l
  induction l with
  | nil => intro h _; exact absurd rfl h
  | cons x xs ih =>
    intro _ hall
    have hx : x = n := hall x (List.mem_cons_self x xs)
    have hstep : uniqueKeys (x :: xs)
        = if (uniqueKeys xs).contains x then uniqueKeys xs else x :: uniqueKeys xs := rfl
    by_cases hxs : xs = []
    · subst hxs hx
      simp [uniqueKeys]
    · have hrec := ih hxs (fun y hy => hall y (List.mem_cons_of_mem _ hy))
      rw [hstep, hrec, hx]
      simp

/-- C5: the schema-context builder renders the `users` catalog rows
`[(id, integer), (name, text)]` exactly as
`CREATE TABLE users (id integer, name text);`, and in general any
single-table group renders as
`CREATE TABLE <table_name> (<col1> <type1>, <col2> <type2>, ...);` with the
columns joined by `", "` in catalog row order. -/
theorem create_table_rendering :
    (Pipable.generate_create_table_statements dbUsers initState none).1
      = .ok ["CREATE TABLE users (id integer, name text);"]
    ∧ ∀ (table_name : String) (cols : List (String × String)), cols ≠ [] →
      createTableStatements
          (cols.map fun c =>
            { table_name := table_name, column_name := c.1, data_type := c.2 })
        = ["CREATE TABLE " ++ table_name ++ " ("
            ++ String.intercalate ", " (cols.map fun c => c.1 ++ " " ++ c.2) ++ ");"] := by
  refine ⟨by decide, ?_⟩
  intro n cols hne
  have hkeys : groupKeys (cols.map fun c => ColRow.mk n c.1 c.2) = [n] := by
    rw [groupKeys, uniqueKeys_const n _ ?ne ?all]
    · simp [sortStrings, insertSorted]
    case ne => simpa using hne
    case all =>
      intro x hx
      simp only [List.map_map, List.mem_map] at hx
      obtain ⟨c, -, rfl⟩ := hx
      rfl
  have hfilter : ((cols.map fun c =>
      ColRow.mk n c.1 c.2).filter (fun r => r.table_name == n))
      = cols.map fun c => ColRow.mk n c.1 c.2 := by
    rw [List.filter_eq_self]
    intro a ha
    obtain ⟨c, -, rfl⟩ := List.mem_map.mp ha
    simp
  have hcols : groupColumns (cols.map fun c => ColRow.mk n c.1 c.2) n
      = String.intercalate ", " (cols.map fun c => c.1 ++ " " ++ c.2) := by
    rw [groupColumns, hfilter]
    simp [List.map_map, Function.comp_def]
  have hrows : ((cols.map fun c => ColRow.mk n c.1 c.2).isEmpty) = false := by
    cases cols with
    | nil => exact absurd rfl hne
    | cons c cs => rfl
  rw [createTableStatements, hrows]
  simp [hkeys, hcols]

/-- Witness for C5 at the concrete `users` columns. -/
theorem create_table_rendering_witness :
    createTableStatements
        ([("id", "integer"), ("name", "text")].map fun c =>
          { table_name := "users", column_name := c.1, data_type := c.2 })
      = ["CREATE TABLE users ("
          ++ String.intercalate ", "
              ([("id", "integer"), ("name", "text")].map fun c => c.1 ++ " " ++ c.2)
          ++ ");"] :=
  create_table_rendering.2 "users" [("id", "integer"), ("name", "text")] (by decide)

/-- Helper: a populated cache short-circuits `_generate_create_table_statements`
with no collaborator call. -/
theorem gen_cache_hit (db : DatabaseConnector) (s : PipState)
    (tn : Option (List String)) (q : List String)
    (h : s.all_table_queries = some q) :
    Pipable.generate_create_table_statements db s tn = (.ok q, s, []) := by
  simp [Pipable.generate_create_table_statements, h]

/-- Helper: after any successful `_generate_create_table_statements` call,
the cache holds exactly the returned list. -/
theorem gen_success_cache (db : DatabaseConnector) (s s1 : PipState)
    (tn : Option (List String)) (r : List String) (tr : List Call)
    (h : Pipable.generate_create_table_statements db s tn = (.ok r, s1, tr)) :
    s1.all_table_queries = some r := by
  cases hc : s.all_table_queries with
  | some q =>
    simp only [Pipable.generate_create_table_statements, hc, Prod.mk.injEq,
      Except.ok.injEq] at h
    obtain ⟨rfl, rfl, -⟩ := h
    exact hc
  | none =>
    cases hq : db.execute_query (columnInfoQuery tn) with
    | ok df =>
      simp only [Pipable.generate_create_table_statements, hc, hq, Prod.mk.injEq,
        Except.ok.injEq] at h
      obtain ⟨rfl, rfl, -⟩ := h
      rfl
    | error e =>
      simp [Pipable.generate_create_table_statements, hc, hq] at h

/-- Helper: `_generate_create_table_statements` never touches the
`connected` flag. -/
theorem gen_connected (db : DatabaseConnector) (s : PipState)
    (tn : Option (List String)) :
    (Pipable.generate_create_table_statements db s tn).2.1.connected
      = s.connected := by
  cases hc : s.all_table_queries with
  | some q => simp [Pipable.generate_create_table_statements, hc]
  | none =>
    cases hq : db.execute_query (columnInfoQuery tn) with
    | ok df => simp [Pipable.generate_create_table_statements, hc, hq]
    | error e => simp [Pipable.generate_create_table_statements, hc, hq]

/-- C6: after one successful schema-context build, a second call — with any
other `table_names` filter — returns the identical cached list, changes no
state, and performs no catalog query. -/
theorem schema_cache_ignores_filter (db : DatabaseConnector) (s s1 : PipState)
    (tn1 tn2 : Option (List String)) (r : List String) (tr : List Call)
    (h : Pipable.generate_create_table_statements db s tn1 = (.ok r, s1, tr)) :
    Pipable.generate_create_table_statements db s1 tn2 = (.ok r, s1, []) :=
  gen_cache_hit db s1 tn2 r (gen_success_cache db s s1 tn1 r tr h)

/-- Witness for C6: build with `table_names = None`, re-ask with
`table_names = ["orders"]`. -/
theorem schema_cache_ignores_filter_witness :
    Pipable.generate_create_table_statements dbUsers
        { connected := false,
          all_table_queries := some ["CREATE TABLE users (id integer, name text);"] }
        (some ["orders"])
      = (.ok ["CREATE TABLE users (id integer, name text);"],
         { connected := false,
           all_table_queries := some ["CREATE TABLE users (id integer, name text);"] },
         []) :=
  schema_cache_ignores_filter dbUsers initState _ none (some ["orders"])
    ["CREATE TABLE users (id integer, name text);"]
    [Call.dbExec (columnInfoQuery none)] (by decide)

/-- C10 counterexample: a successful catalog query with zero rows does NOT
cache the empty list — the pandas empty-groupby artifact caches one garbage
statement per result column, a non-empty list. -/
theorem cache_empty_rows_not_empty_list :
    (Pipable.generate_create_table_statements dbEmptyRows initState none).1
        = .ok ["CREATE TABLE table_name (Series([], dtype: object));",
               "CREATE TABLE column_name (Series([], dtype: object));",
               "CREATE TABLE data_type (Series([], dtype: object));"]
    ∧ ¬ (Pipable.generate_create_table_statements dbEmptyRows initState none).1
        = .ok ([] : List String)
    ∧ ¬ (Pipable.generate_create_table_statements
          dbEmptyRows initState none).2.1.all_table_queries = some ([] : List String) := by
  refine ⟨rfl, by decide, by decide⟩

/-- C10 (amended): the cache is guarded by an is-not-None check, not a
non-emptiness check: a populated cache (even `some []`) is returned as-is
with no catalog query; a successful metadata query with zero rows caches
the non-empty list of three per-column garbage statements (the pandas
empty-groupby artifact), and every later call (any filter) returns that
cached list without re-querying; recomputation happens only while the
cache field is `None`. -/
theorem cache_guard_is_not_none (db : DatabaseConnector) (s : PipState)
    (tn tn2 : Option (List String)) (q : List String) :
    (s.all_table_queries = some q →
      Pipable.generate_create_table_statements db s tn = (.ok q, s, []))
    ∧ (s.all_table_queries = none →
      db.execute_query (columnInfoQuery tn) = .ok [] →
      Pipable.generate_create_table_statements db s tn
        = (.ok emptyGroupStatements,
           { s with all_table_queries := some emptyGroupStatements },
           [Call.dbExec (columnInfoQuery tn)])
      ∧ Pipable.generate_create_table_statements db
            { s with all_table_queries := some emptyGroupStatements } tn2
          = (.ok emptyGroupStatements,
             { s with all_table_queries := some emptyGroupStatements }, [])) := by
  constructor
  · intro h
    exact gen_cache_hit db s tn q h
  · intro h hq
    constructor
    · simp [Pipable.generate_create_table_statements, h, hq, createTableStatements]
    · simp [Pipable.generate_create_table_statements]

/-- Witness for C10: an empty result set caches the garbage statements,
which are then served from cache under a different filter. -/
theorem cache_guard_is_not_none_witness :
    Pipable.generate_create_table_statements dbEmptyRows initState none
      = (.ok emptyGroupStatements,
         { initState with all_table_queries := some emptyGroupStatements },
         [Call.dbExec (columnInfoQuery none)])
    ∧ Pipable.generate_create_table_statements dbEmptyRows
          { initState with all_table_queries := some emptyGroupStatements }
          (some ["orders"])
        = (.ok emptyGroupStatements,
           { initState with all_table_queries := some emptyGroupStatements }, []) :=
  (cache_guard_is_not_none dbEmptyRows initState none (some ["orders"]) []).2
    rfl rfl

/-- Helper for C8/C9: on the path where connect succeeds, the schema build
succeeds and the model returns a non-empty string, `ask`'s try body reaches
the execution step with exactly the trimmed generated SQL. -/
theorem askInner_exec_path (db : DatabaseConnector) (llm : LlmApiClient)
    (s : PipState) (question : String) (tn : Option (List String))
    (stmts : List String) (s2 : PipState) (tr2 : List Call) (t : String)
    (h1 : db.connect = .ok ())
    (h2 : Pipable.generate_create_table_statements db { s with connected := true } tn
            = (.ok stmts, s2, tr2))
    (h3 : llm.generate_text (String.intercalate " " stmts) question = .ok t)
    (h4 : t ≠ "") :
    Pipable.askInner db llm s question tn
      = (db.execute_query (pyStrip t), s2,
         (if s.connected then ([] : List Call) else [Call.dbConnect]) ++ tr2
           ++ [Call.llmGenerate (String.intercalate " " stmts) question,
               Call.dbExec (pyStrip t)]) := by
  have hcs : Pipable.connect db s
      = (.ok (), { s with connected := true },
         if s.connected then ([] : List Call) else [Call.dbConnect]) := by
    cases hc : s.connected
    · simp [Pipable.connect, hc, h1]
    · have hss : ({ s with connected := true } : PipState) = s := by
        cases s
        simp_all
      simp [Pipable.connect, hc, hss]
  cases hq : db.execute_query (pyStrip t) <;>
    simp [Pipable.askInner, hcs, h2, Pipable.generate_sql_query, h3, h4, hq]

/-- C8: if `execute_query` raises while executing the generated SQL (after a
successful connect, schema build and non-empty generation), `ask()` fails
with the wrapped `"Error in 'ask' method: ..."` message and the `connected`
flag stays `True` — no implicit disconnect on a query failure. -/
theorem ask_exec_failure_keeps_connected (db : DatabaseConnector)
    (llm : LlmApiClient) (s : PipState) (question : String)
    (tn : Option (List String)) (stmts : List String) (s2 : PipState)
    (tr2 : List Call) (t : String) (e : PyErr)
    (h1 : db.connect = .ok ())
    (h2 : Pipable.generate_create_table_statements db { s with connected := true } tn
            = (.ok stmts, s2, tr2))
    (h3 : llm.generate_text (String.intercalate " " stmts) question = .ok t)
    (h4 : t ≠ "")
    (h5 : db.execute_query (pyStrip t) = .error e) :
    (Pipable.ask db llm s question tn).1
      = .error (.other ("Error in 'ask' method: " ++ PyErr.msg e))
    ∧ (Pipable.ask db llm s question tn).2.1.connected = true := by
  have hp := askInner_exec_path db llm s question tn stmts s2 tr2 t h1 h2 h3 h4
  have hs2 : s2.connected = true := by
    have hg := gen_connected db { s with connected := true } tn
    rw [h2] at hg
    exact hg
  constructor
  · simp [Pipable.ask, hp, h5]
  · simp [Pipable.ask, hp, h5, hs2]

/-- Witness for C8: the connector accepts the catalog query but raises on
the generated SQL. -/
theorem ask_exec_failure_keeps_connected_witness :
    (Pipable.ask dbExecFail llmPadded initState "avg" none).1
      = .error (.other ("Error in 'ask' method: " ++ PyErr.msg (.other "exec boom")))
    ∧ (Pipable.ask dbExecFail llmPadded initState "avg" none).2.1.connected = true :=
  ask_exec_failure_keeps_connected dbExecFail llmPadded initState "avg" none
    ["CREATE TABLE users (id integer);"]
    { connected := true,
      all_table_queries := some ["CREATE TABLE users (id integer);"] }
    [Call.dbExec (columnInfoQuery none)] "  SELECT 1;\n" (.other "exec boom")
    rfl (by decide) rfl (by decide) (by decide)

/-- C9: on every non-empty generation, the SQL text `ask()` hands to
`execute_query` is exactly the model's returned string with leading and
trailing whitespace stripped — visible as the final `dbExec` entry of the
collaborator trace. -/
theorem ask_passes_trimmed_sql (db : DatabaseConnector) (llm : LlmApiClient)
    (s : PipState) (question : String) (tn : Option (List String))
    (stmts : List String) (s2 : PipState) (tr2 : List Call) (t : String)
    (h1 : db.connect = .ok ())
    (h2 : Pipable.generate_create_table_statements db { s with connected := true } tn
            = (.ok stmts, s2, tr2))
    (h3 : llm.generate_text (String.intercalate " " stmts) question = .ok t)
    (h4 : t ≠ "") :
    (Pipable.ask db llm s question tn).2.2
      = (if s.connected then ([] : List Call) else [Call.dbConnect]) ++ tr2
        ++ [Call.llmGenerate (String.intercalate " " stmts) question,
            Call.dbExec (pyStrip t)] := by
  have hp := askInner_exec_path db llm s question tn stmts s2 tr2 t h1 h2 h3 h4
  cases hq : db.execute_query (pyStrip t) <;>
    simp [Pipable.ask, hp, hq]

/-- Witness for C9: the padded generation `"  SELECT 1;\n"` is executed as
`"SELECT 1;"`. -/
theorem ask_passes_trimmed_sql_witness :
    (Pipable.ask dbUsers llmPadded initState "q" none).2.2
      = (if initState.connected then ([] : List Call) else [Call.dbConnect])
        ++ [Call.dbExec (columnInfoQuery none)]
        ++ [Call.llmGenerate
              (String.intercalate " " ["CREATE TABLE users (id integer, name text);"]) "q",
            Call.dbExec (pyStrip "  SELECT 1;\n")] :=
  ask_passes_trimmed_sql dbUsers llmPadded initState "q" none
    ["CREATE TABLE users (id integer, name text);"]
    { connected := true,
      all_table_queries := some ["CREATE TABLE users (id integer, name text);"] }
    [Call.dbExec (columnInfoQuery none)] "  SELECT 1;\n"
    rfl (by decide) rfl (by decide)
